import Mathlib

/-!
Verification of the fast-student RBAC service.

The source under scrutiny is `src/fast_acl/app.py`: a FastAPI application whose
route handlers gate CRUD operations on student records behind a permission
callable.  The handlers, the registered `NotFoundError` exception handler and
the wiring of route values and path parameters are embedded directly from
`app.py`.  The modules `fast_acl.acl.mapper` (permission evaluation),
`fast_acl.auth`, `fast_acl.controller`, `fast_acl.schema` and
`fast_acl.exception` are referenced by `app.py` but their sources are not
available; the parts of them the theorems need are modelled from the
specification and marked as such in their doc comments.
-/

namespace FastAcl

/-- Caller roles. The spec's Role enumeration: "e.g., teacher, student, admin";
`app.py` imports `UserRoles` from `fast_acl.acl.mapper`. -/
inductive UserRoles
| teacher
| student
| admin
deriving DecidableEq, BEq, Repr

/-- Protected action identifiers, from `fast_acl.acl.routes.RoutesEnum` as used
in `app.py` (one per handler, EXPEL distinct from DELETE). -/
inductive RoutesEnum
| ADD_STUDENT
| READ_STUDENT
| UPDATE_STUDENT
| DELETE_STUDENT
| EXPEL_STUDENT
deriving DecidableEq, BEq, Repr

/-- Modelled from the spec: `ScopeKind` of a `PermissionGrant` —
"Global | OwnResourceOnly | Denied". The grant type lives in
`fast_acl.acl.mapper`, which is not under `src/`. -/
inductive ScopeKind
| Global
| OwnResourceOnly
| Denied
deriving DecidableEq, BEq, Repr

/-- Modelled from the spec: `PermissionGrants` (imported by `app.py` from
`fast_acl.acl.mapper`) — "Attributes: allowed: bool, scope: ScopeKind". -/
structure PermissionGrants where
  allowed : Bool
  scope : ScopeKind
deriving DecidableEq, Repr

/-- The permission table. `app.py` types it
`dict[RoutesEnum, dict[UserRoles, PermissionGrants]]`; the spec's Registry
exposes `lookup(route, role) -> PermissionGrant option`, so the nested dict
lookup is embedded as a function into `Option`. -/
def PermissionSetting : Type :=
  RoutesEnum → UserRoles → Option PermissionGrants

/-- Modelled from the spec: `TokenData` (from `fast_acl.auth`, not under
`src/`) carries the authenticated identity — "user id + Role"; `app.py` reads
exactly `token.user_id` and `token.role` from it. -/
structure TokenData where
  user_id : Nat
  role : UserRoles
deriving DecidableEq, Repr

/-- Modelled from the spec: `AuthorizationOutcome` — "either Permit or
Deny(reason)". -/
inductive AuthorizationOutcome
| Permit
| Deny (reason : String)
deriving DecidableEq, Repr

/-- The ownership-check collaborator: whether a user id owns/administers a
classroom id. The spec treats it as an opaque pure read. -/
def Ownership : Type :=
  Nat → Nat → Bool

/-- Modelled from the spec: the Grant Evaluator's decision function
(`fast_acl.acl.mapper` is not under `src/`). Algorithm of spec section 4.2:
1. look the (route, role) pair up in the registry; 2. no entry →
Deny "no grant defined"; 3. allowed = false → Deny "explicitly denied";
4. Global scope → Permit; 5. OwnResourceOnly → Permit iff the ownership
check reports true, else Deny "not owner of resource"; 6. any other scope →
Deny "unrecognized scope". -/
def authorize (ps : PermissionSetting) (owns : Ownership)
    (identity : TokenData) (route : RoutesEnum) (classroom_id : Nat) :
    AuthorizationOutcome :=
  match ps route identity.role with
  | none => .Deny "no grant defined"
  | some grant =>
    if grant.allowed = false then .Deny "explicitly denied"
    else
      match grant.scope with
      | .Global => .Permit
      | .OwnResourceOnly =>
          if owns identity.user_id classroom_id then .Permit
          else .Deny "not owner of resource"
      | .Denied => .Deny "unrecognized scope"

/-- Modelled from the spec: the permission callable produced by
`get_permission_callable` in `fast_acl.acl.mapper` (not under `src/`). It is
awaited by every handler in `app.py` with the argument list
(user_rule, user_id, route, permission_setting, classroom_id) and its return
value is discarded, so the short-circuit the spec demands of the handlers can
only come from the callable aborting the handler on denial; that abort is
embedded as the error of an `Except`, carrying the Deny reason. -/
def check_permission (owns : Ownership) (user_rule : UserRoles)
    (user_id : Nat) (route : RoutesEnum) (permission_setting : PermissionSetting)
    (classroom_id : Nat) : Except String Unit :=
  match authorize permission_setting owns ⟨user_id, user_rule⟩ route classroom_id with
  | .Permit => .ok ()
  | .Deny reason => .error reason

/-- Modelled from the spec: the request body schema `StudetnInput`
(`fast_acl.schema`, not under `src/`). Its fields are opaque to the
authorization core — `app.py` forwards `body.model_dump()` verbatim to the
controller — so it is embedded as an abstract payload. -/
structure StudetnInput where
  payload : String
deriving DecidableEq, Repr

/-- A call into the Resource Store, as issued by the handlers of `app.py`
through `StudentController`: the method and the arguments `app.py` passes. -/
inductive StoreCall
| add_student (body : StudetnInput) (classroom_id : Nat)
| get_student (student_id : Nat)
| update_student_grade (student_id : Nat) (grade : Nat)
| expel_student (student_id : Nat)
deriving DecidableEq, Repr

instance {ε α : Type} [DecidableEq ε] [DecidableEq α] : DecidableEq (Except ε α) := fun a b =>
  match a, b with
  | .ok x, .ok y =>
      if h : x = y then .isTrue (by rw [h]) else .isFalse (by simp [h])
  | .error x, .error y =>
      if h : x = y then .isTrue (by rw [h]) else .isFalse (by simp [h])
  | .ok _, .error _ => .isFalse (by simp)
  | .error _, .ok _ => .isFalse (by simp)

/-- Result of running one handler: the Resource Store calls it performed, in
order, and its final outcome — `Except.ok ()` when the handler body ran to
completion, `Except.error r` when the permission callable aborted it with
reason `r`. -/
structure HandlerRun where
  calls : List StoreCall
  result : Except String Unit
deriving DecidableEq, Repr

/-- A permission callable as the handlers receive it via dependency
injection: `app.py` declares it `permission_callable: Callable` and discards
whatever value it returns, so the handlers are parametric in the callable's
success type `α`. -/
def PermissionCallable (α : Type) : Type :=
  UserRoles → Nat → RoutesEnum → PermissionSetting → Nat → Except String α

/-- Handler of POST /classroom/\x7bclassroom_id\x7d/student (`app.py` lines
67–87): awaits the permission callable with route `ADD_STUDENT` and the path
classroom id, then calls `StudentController(database).add_student(**body,
classroom_id=classroom_id)`. -/
def create_student {α : Type} (permission_callable : PermissionCallable α)
    (token : TokenData) (permission_setting : PermissionSetting)
    (classroom_id : Nat) (body : StudetnInput) : HandlerRun :=
  match permission_callable token.role token.user_id RoutesEnum.ADD_STUDENT
      permission_setting classroom_id with
  | .error reason => ⟨[], .error reason⟩
  | .ok _ => ⟨[.add_student body classroom_id], .ok ()⟩

/-- Handler of GET /classroom/\x7bclassroom_id\x7d/student/\x7bstudent_id\x7d
(`app.py` lines 90–108): permission check with route `READ_STUDENT` and the
path classroom id, then `get_student(student_id)`. -/
def get_student {α : Type} (permission_callable : PermissionCallable α)
    (token : TokenData) (permission_setting : PermissionSetting)
    (classroom_id : Nat) (student_id : Nat) : HandlerRun :=
  match permission_callable token.role token.user_id RoutesEnum.READ_STUDENT
      permission_setting classroom_id with
  | .error reason => ⟨[], .error reason⟩
  | .ok _ => ⟨[.get_student student_id], .ok ()⟩

/-- Handler of PUT /classroom/\x7bclassroom_id\x7d/student/\x7bstudent_id\x7d
(`app.py` lines 111–129): no body parameter; permission check with route
`UPDATE_STUDENT`, then `update_student_grade(student_id, grade=10)`. -/
def update_student {α : Type} (permission_callable : PermissionCallable α)
    (token : TokenData) (permission_setting : PermissionSetting)
    (classroom_id : Nat) (student_id : Nat) : HandlerRun :=
  match permission_callable token.role token.user_id RoutesEnum.UPDATE_STUDENT
      permission_setting classroom_id with
  | .error reason => ⟨[], .error reason⟩
  | .ok _ => ⟨[.update_student_grade student_id 10], .ok ()⟩

/-- Handler of DELETE /classroom/\x7bclassroom_id\x7d/student/\x7bstudent_id\x7d
(`app.py` lines 132–149): permission check with route `DELETE_STUDENT`; the
handler body contains no controller call after it. -/
def delete_student {α : Type} (permission_callable : PermissionCallable α)
    (token : TokenData) (permission_setting : PermissionSetting)
    (classroom_id : Nat) (student_id : Nat) : HandlerRun :=
  match permission_callable token.role token.user_id RoutesEnum.DELETE_STUDENT
      permission_setting classroom_id with
  | .error reason => ⟨[], .error reason⟩
  | .ok _ => ⟨[], .ok ()⟩

/-- Handler of PATCH /classroom/\x7bclassroom_id\x7d/student/\x7bstudent_id\x7d
(`app.py` lines 152–170): permission check with route `EXPEL_STUDENT`, then
`expel_student(student_id)`. -/
def expel_student {α : Type} (permission_callable : PermissionCallable α)
    (token : TokenData) (permission_setting : PermissionSetting)
    (classroom_id : Nat) (student_id : Nat) : HandlerRun :=
  match permission_callable token.role token.user_id RoutesEnum.EXPEL_STUDENT
      permission_setting classroom_id with
  | .error reason => ⟨[], .error reason⟩
  | .ok _ => ⟨[.expel_student student_id], .ok ()⟩

/-- Modelled from the spec: `NotFoundError` (`fast_acl.exception`, not
under `src/`) — the Store's "not found" condition, carrying the absent id,
read by `app.py` as `exc.obj_id`. -/
structure NotFoundError where
  obj_id : Nat
deriving DecidableEq, Repr

/-- A transport-level JSON response: status code and message content. -/
structure JSONResponse where
  status_code : Nat
  message : String
deriving DecidableEq, Repr

/-- The exception handler `app.py` registers for `NotFoundError` (lines
44–49): status `HTTP_404_NOT_FOUND` and the message
f"Object with id \x7bexc.obj_id\x7d was nout found". -/
def unicorn_exception_handler (exc : NotFoundError) : JSONResponse :=
  { status_code := 404,
    message := "Object with id " ++ toString exc.obj_id ++ " was nout found" }

/-! Helper lemmas relating the injected permission callable to the evaluator. -/

theorem check_permission_of_deny (owns : Ownership) (ps : PermissionSetting)
    (token : TokenData) (route : RoutesEnum) (classroom_id : Nat) (reason : String)
    (h : authorize ps owns token route classroom_id = .Deny reason) :
    check_permission owns token.role token.user_id route ps classroom_id
      = .error reason := by
  unfold check_permission
  rw [show (⟨token.user_id, token.role⟩ : TokenData) = token from rfl, h]

theorem check_permission_of_permit (owns : Ownership) (ps : PermissionSetting)
    (token : TokenData) (route : RoutesEnum) (classroom_id : Nat)
    (h : authorize ps owns token route classroom_id = .Permit) :
    check_permission owns token.role token.user_id route ps classroom_id = .ok () := by
  unfold check_permission
  rw [show (⟨token.user_id, token.role⟩ : TokenData) = token from rfl, h]

theorem check_permission_cases (owns : Ownership) (ps : PermissionSetting)
    (token : TokenData) (route : RoutesEnum) (classroom_id : Nat) :
    (authorize ps owns token route classroom_id = .Permit
      ∧ check_permission owns token.role token.user_id route ps classroom_id = .ok ())
    ∨ ∃ reason, authorize ps owns token route classroom_id = .Deny reason
      ∧ check_permission owns token.role token.user_id route ps classroom_id
          = .error reason := by
  cases h : authorize ps owns token route classroom_id with
  | Permit =>
      exact Or.inl ⟨rfl, check_permission_of_permit owns ps token route classroom_id h⟩
  | Deny r =>
      exact Or.inr ⟨r, rfl, check_permission_of_deny owns ps token route classroom_id r h⟩

/-! # Claim theorems -/

/-- C1: for every (route, role) pair with no entry in the permission registry,
`authorize` returns Deny ("no grant defined") — never Permit by default — for
any identity user id, any ownership relation and any resource context. -/
theorem c1_missing_entry_denies (ps : PermissionSetting) (owns : Ownership)
    (identity : TokenData) (route : RoutesEnum) (classroom_id : Nat)
    (h : ps route identity.role = none) :
    authorize ps owns identity route classroom_id = .Deny "no grant defined" := by
  unfold authorize
  rw [h]

/-- Witness for C1: a registry with no entries denies a concrete request. -/
theorem c1_missing_entry_denies_witness :
    authorize (fun _ _ => none) (fun _ _ => true) ⟨7, .student⟩ .ADD_STUDENT 3
      = .Deny "no grant defined" :=
  c1_missing_entry_denies (fun _ _ => none) (fun _ _ => true) ⟨7, .student⟩
    .ADD_STUDENT 3 rfl

/-- C2: for every route whose grant for the caller's role has scope
OwnResourceOnly and allowed true, `authorize` returns Permit iff the
ownership-check collaborator reports that the identity owns the classroom in
the resource context; otherwise it returns Deny "not owner of resource". -/
theorem c2_own_resource_only_iff_owner (ps : PermissionSetting) (owns : Ownership)
    (identity : TokenData) (route : RoutesEnum) (classroom_id : Nat)
    (g : PermissionGrants) (hg : ps route identity.role = some g)
    (ha : g.allowed = true) (hs : g.scope = .OwnResourceOnly) :
    (authorize ps owns identity route classroom_id = .Permit
      ↔ owns identity.user_id classroom_id = true)
    ∧ (owns identity.user_id classroom_id = false →
        authorize ps owns identity route classroom_id = .Deny "not owner of resource") := by
  cases how : owns identity.user_id classroom_id with
  | true => simp [authorize, hg, ha, hs, how]
  | false => simp [authorize, hg, ha, hs, how]

/-- Witness for C2: under an OwnResourceOnly grant, a non-owner is denied
with reason "not owner of resource". -/
theorem c2_own_resource_only_iff_owner_witness :
    authorize (fun _ _ => some ⟨true, .OwnResourceOnly⟩) (fun _ _ => false)
      ⟨1, .teacher⟩ .ADD_STUDENT 2 = .Deny "not owner of resource" :=
  (c2_own_resource_only_iff_owner (fun _ _ => some ⟨true, .OwnResourceOnly⟩)
    (fun _ _ => false) ⟨1, .teacher⟩ .ADD_STUDENT 2 ⟨true, .OwnResourceOnly⟩
    rfl rfl rfl).2 rfl

/-- C3: in every route handler (create, read, update, delete, expel), a
denial from the authorization check means no Resource Store call is
performed, and any Resource Store call the handler performs implies the
authorization check completed with Permit for that handler's route. -/
theorem c3_store_calls_only_after_permit (ps : PermissionSetting) (owns : Ownership)
    (token : TokenData) (classroom_id student_id : Nat) (body : StudetnInput)
    (reason : String) :
    ((authorize ps owns token .ADD_STUDENT classroom_id = .Deny reason →
        (create_student (check_permission owns) token ps classroom_id body).calls = [])
      ∧ ((create_student (check_permission owns) token ps classroom_id body).calls ≠ [] →
        authorize ps owns token .ADD_STUDENT classroom_id = .Permit))
    ∧ ((authorize ps owns token .READ_STUDENT classroom_id = .Deny reason →
        (get_student (check_permission owns) token ps classroom_id student_id).calls = [])
      ∧ ((get_student (check_permission owns) token ps classroom_id student_id).calls ≠ [] →
        authorize ps owns token .READ_STUDENT classroom_id = .Permit))
    ∧ ((authorize ps owns token .UPDATE_STUDENT classroom_id = .Deny reason →
        (update_student (check_permission owns) token ps classroom_id student_id).calls = [])
      ∧ ((update_student (check_permission owns) token ps classroom_id student_id).calls ≠ [] →
        authorize ps owns token .UPDATE_STUDENT classroom_id = .Permit))
    ∧ ((authorize ps owns token .DELETE_STUDENT classroom_id = .Deny reason →
        (delete_student (check_permission owns) token ps classroom_id student_id).calls = [])
      ∧ ((delete_student (check_permission owns) token ps classroom_id student_id).calls ≠ [] →
        authorize ps owns token .DELETE_STUDENT classroom_id = .Permit))
    ∧ ((authorize ps owns token .EXPEL_STUDENT classroom_id = .Deny reason →
        (expel_student (check_permission owns) token ps classroom_id student_id).calls = [])
      ∧ ((expel_student (check_permission owns) token ps classroom_id student_id).calls ≠ [] →
        authorize ps owns token .EXPEL_STUDENT classroom_id = .Permit)) := by
  refine ⟨⟨?_, ?_⟩, ⟨?_, ?_⟩, ⟨?_, ?_⟩, ⟨?_, ?_⟩, ⟨?_, ?_⟩⟩
  · intro hden
    rw [create_student,
      check_permission_of_deny owns ps token .ADD_STUDENT classroom_id reason hden]
  · intro hne
    rcases check_permission_cases owns ps token .ADD_STUDENT classroom_id with
      ⟨hp, _⟩ | ⟨r, _, herr⟩
    · exact hp
    · exact absurd (by rw [create_student, herr]) hne
  · intro hden
    rw [get_student,
      check_permission_of_deny owns ps token .READ_STUDENT classroom_id reason hden]
  · intro hne
    rcases check_permission_cases owns ps token .READ_STUDENT classroom_id with
      ⟨hp, _⟩ | ⟨r, _, herr⟩
    · exact hp
    · exact absurd (by rw [get_student, herr]) hne
  · intro hden
    rw [update_student,
      check_permission_of_deny owns ps token .UPDATE_STUDENT classroom_id reason hden]
  · intro hne
    rcases check_permission_cases owns ps token .UPDATE_STUDENT classroom_id with
      ⟨hp, _⟩ | ⟨r, _, herr⟩
    · exact hp
    · exact absurd (by rw [update_student, herr]) hne
  · intro hden
    rw [delete_student,
      check_permission_of_deny owns ps token .DELETE_STUDENT classroom_id reason hden]
  · intro hne
    rcases check_permission_cases owns ps token .DELETE_STUDENT classroom_id with
      ⟨hp, _⟩ | ⟨r, _, herr⟩
    · exact hp
    · exact absurd (by rw [delete_student, herr]) hne
  · intro hden
    rw [expel_student,
      check_permission_of_deny owns ps token .EXPEL_STUDENT classroom_id reason hden]
  · intro hne
    rcases check_permission_cases owns ps token .EXPEL_STUDENT classroom_id with
      ⟨hp, _⟩ | ⟨r, _, herr⟩
    · exact hp
    · exact absurd (by rw [expel_student, herr]) hne

/-- Witness for C3: with an empty registry every handler is denied and makes
no store call; with a Global grant, the create handler's nonempty call list
forces a Permit outcome. -/
theorem c3_store_calls_only_after_permit_witness :
    ((create_student (check_permission (fun _ _ => false)) ⟨0, .student⟩
        (fun _ _ => none) 1 ⟨"x"⟩).calls = [])
    ∧ ((get_student (check_permission (fun _ _ => false)) ⟨0, .student⟩
        (fun _ _ => none) 1 2).calls = [])
    ∧ ((update_student (check_permission (fun _ _ => false)) ⟨0, .student⟩
        (fun _ _ => none) 1 2).calls = [])
    ∧ ((delete_student (check_permission (fun _ _ => false)) ⟨0, .student⟩
        (fun _ _ => none) 1 2).calls = [])
    ∧ ((expel_student (check_permission (fun _ _ => false)) ⟨0, .student⟩
        (fun _ _ => none) 1 2).calls = [])
    ∧ authorize (fun _ _ => some ⟨true, .Global⟩) (fun _ _ => false) ⟨0, .admin⟩
        .ADD_STUDENT 1 = .Permit :=
  ⟨(c3_store_calls_only_after_permit (fun _ _ => none) (fun _ _ => false)
      ⟨0, .student⟩ 1 2 ⟨"x"⟩ "no grant defined").1.1 rfl,
   (c3_store_calls_only_after_permit (fun _ _ => none) (fun _ _ => false)
      ⟨0, .student⟩ 1 2 ⟨"x"⟩ "no grant defined").2.1.1 rfl,
   (c3_store_calls_only_after_permit (fun _ _ => none) (fun _ _ => false)
      ⟨0, .student⟩ 1 2 ⟨"x"⟩ "no grant defined").2.2.1.1 rfl,
   (c3_store_calls_only_after_permit (fun _ _ => none) (fun _ _ => false)
      ⟨0, .student⟩ 1 2 ⟨"x"⟩ "no grant defined").2.2.2.1.1 rfl,
   (c3_store_calls_only_after_permit (fun _ _ => none) (fun _ _ => false)
      ⟨0, .student⟩ 1 2 ⟨"x"⟩ "no grant defined").2.2.2.2.1 rfl,
   (c3_store_calls_only_after_permit (fun _ _ => some ⟨true, .Global⟩)
      (fun _ _ => false) ⟨0, .admin⟩ 1 2 ⟨"x"⟩ "no grant defined").1.2 (by decide)⟩

/-- C4: the claim says every handler invokes its Resource Store CRUD
operation once authorization permits — in particular the delete handler. The
code's `delete_student` (app.py lines 132–149) performs no controller call
after the permission check: at a registry granting admin a Global
DELETE_STUDENT grant, the evaluator permits, yet the delete handler's run
makes zero store calls, while the expel handler at the same inputs does call
the store. -/
theorem c4_delete_handler_makes_no_store_call :
    authorize (fun _ _ => some ⟨true, .Global⟩) (fun _ _ => false) ⟨0, .admin⟩
        .DELETE_STUDENT 1 = .Permit
    ∧ delete_student (check_permission (fun _ _ => false)) ⟨0, .admin⟩
        (fun _ _ => some ⟨true, .Global⟩) 1 2 = ⟨[], .ok ()⟩
    ∧ expel_student (check_permission (fun _ _ => false)) ⟨0, .admin⟩
        (fun _ _ => some ⟨true, .Global⟩) 1 2 = ⟨[.expel_student 2], .ok ()⟩ :=
  ⟨rfl, rfl, rfl⟩

/-- C5: each handler invokes the permission check with the route value of its
own action (ADD, READ, UPDATE, DELETE, EXPEL respectively) and with the
classroom id bound from the request path, reading only the role and user id
from the caller's token: the run's outcome equals the injected callable
applied at exactly that route and path classroom id, for an arbitrary
callable; and the EXPEL route value is distinct from DELETE. -/
theorem c5_handlers_pass_own_route_and_path_classroom {α : Type}
    (pc : PermissionCallable α) (token : TokenData) (ps : PermissionSetting)
    (classroom_id student_id : Nat) (body : StudetnInput) :
    (create_student pc token ps classroom_id body).result
        = (pc token.role token.user_id .ADD_STUDENT ps classroom_id).map (fun _ => ())
    ∧ (get_student pc token ps classroom_id student_id).result
        = (pc token.role token.user_id .READ_STUDENT ps classroom_id).map (fun _ => ())
    ∧ (update_student pc token ps classroom_id student_id).result
        = (pc token.role token.user_id .UPDATE_STUDENT ps classroom_id).map (fun _ => ())
    ∧ (delete_student pc token ps classroom_id student_id).result
        = (pc token.role token.user_id .DELETE_STUDENT ps classroom_id).map (fun _ => ())
    ∧ (expel_student pc token ps classroom_id student_id).result
        = (pc token.role token.user_id .EXPEL_STUDENT ps classroom_id).map (fun _ => ())
    ∧ (RoutesEnum.EXPEL_STUDENT == RoutesEnum.DELETE_STUDENT) = false := by
  refine ⟨?_, ?_, ?_, ?_, ?_, rfl⟩
  · cases h : pc token.role token.user_id .ADD_STUDENT ps classroom_id <;>
      simp [create_student, h, Except.map]
  · cases h : pc token.role token.user_id .READ_STUDENT ps classroom_id <;>
      simp [get_student, h, Except.map]
  · cases h : pc token.role token.user_id .UPDATE_STUDENT ps classroom_id <;>
      simp [update_student, h, Except.map]
  · cases h : pc token.role token.user_id .DELETE_STUDENT ps classroom_id <;>
      simp [delete_student, h, Except.map]
  · cases h : pc token.role token.user_id .EXPEL_STUDENT ps classroom_id <;>
      simp [expel_student, h, Except.map]

/-- C6 counterexample: the claim says the calling handler layer maps a
first-class Deny return value to the rejection, with no exceptional control
flow. But the handlers of app.py discard the permission callable's return
value. Concretely: give `create_student` a callable in the architecture the
claim describes — it returns the `AuthorizationOutcome` as a plain value and
never aborts — against a registry whose grant is explicitly denied; the
evaluator computes Deny "explicitly denied", yet the handler performs the
store CRUD and completes successfully, mapping nothing. -/
theorem c6_handler_ignores_returned_deny :
    authorize (fun _ _ => some ⟨false, .Denied⟩) (fun _ _ => false) ⟨0, .teacher⟩
        .ADD_STUDENT 1 = .Deny "explicitly denied"
    ∧ create_student
        (fun role uid route ps c =>
          Except.ok (authorize ps (fun _ _ => false) ⟨uid, role⟩ route c))
        ⟨0, .teacher⟩ (fun _ _ => some ⟨false, .Denied⟩) 1 ⟨"x"⟩
      = ⟨[.add_student ⟨"x"⟩ 1], .ok ()⟩ :=
  ⟨rfl, rfl⟩

/-- C6 (amended): the evaluator computes the denial as a first-class Deny
value, but the handlers discard the permission callable's return value, so a
denial reaches the transport only by the callable aborting the handler
(exception-style control flow) carrying the Deny reason; any value returned
normally — whatever it is — lets the CRUD call proceed. -/
theorem c6_denial_aborts_handler (ps : PermissionSetting) (owns : Ownership)
    (token : TokenData) (classroom_id : Nat) (body : StudetnInput) (reason : String)
    (h : authorize ps owns token .ADD_STUDENT classroom_id = .Deny reason) :
    check_permission owns token.role token.user_id .ADD_STUDENT ps classroom_id
        = .error reason
    ∧ create_student (check_permission owns) token ps classroom_id body
        = ⟨[], .error reason⟩
    ∧ ∀ (α : Type) (pc : PermissionCallable α) (v : α),
        pc token.role token.user_id .ADD_STUDENT ps classroom_id = .ok v →
        create_student pc token ps classroom_id body
          = ⟨[.add_student body classroom_id], .ok ()⟩ := by
  have herr := check_permission_of_deny owns ps token .ADD_STUDENT classroom_id reason h
  refine ⟨herr, ?_, ?_⟩
  · rw [create_student, herr]
  · intro α pc v hok
    rw [create_student, hok]

/-- Witness for C6 (amended): a denied concrete request aborts the create
handler with the Deny reason and no store call. -/
theorem c6_denial_aborts_handler_witness :
    create_student (check_permission (fun _ _ => false)) ⟨0, .teacher⟩
      (fun _ _ => some ⟨false, .Denied⟩) 1 ⟨"x"⟩ = ⟨[], .error "explicitly denied"⟩ :=
  (c6_denial_aborts_handler (fun _ _ => some ⟨false, .Denied⟩) (fun _ _ => false)
    ⟨0, .teacher⟩ 1 ⟨"x"⟩ "explicitly denied" rfl).2.1

/-- C7: the exception handler registered for the Store's not-found condition
responds with status 404 and a message that contains the missing object's
id. -/
theorem c7_not_found_maps_to_404 (exc : NotFoundError) :
    (unicorn_exception_handler exc).status_code = 404
    ∧ ∃ p q, (unicorn_exception_handler exc).message
        = p ++ toString exc.obj_id ++ q :=
  ⟨rfl, "Object with id ", " was nout found", rfl⟩

/-- C8: the authorization decision is a pure, deterministic function of
identity, route, resource context, registry snapshot and ownership fact: two
evaluations whose registries agree on the consulted (route, role) entry and
whose ownership collaborators agree on the consulted (user, classroom) pair
yield identical outcomes — in particular, two calls with identical inputs
and an unchanged registry agree. -/
theorem c8_authorize_deterministic (ps1 ps2 : PermissionSetting)
    (owns1 owns2 : Ownership) (token : TokenData) (route : RoutesEnum)
    (classroom_id : Nat)
    (hps : ps1 route token.role = ps2 route token.role)
    (howns : owns1 token.user_id classroom_id = owns2 token.user_id classroom_id) :
    authorize ps1 owns1 token route classroom_id
      = authorize ps2 owns2 token route classroom_id := by
  unfold authorize
  rw [hps, howns]

/-- Witness for C8: two evaluations of the same concrete input under the same
registry coincide. -/
theorem c8_authorize_deterministic_witness :
    authorize (fun _ _ => some ⟨true, .OwnResourceOnly⟩) (fun u c => u == c)
        ⟨1, .teacher⟩ .READ_STUDENT 1
      = authorize (fun _ _ => some ⟨true, .OwnResourceOnly⟩) (fun u c => u == c)
        ⟨1, .teacher⟩ .READ_STUDENT 1 :=
  c8_authorize_deterministic (fun _ _ => some ⟨true, .OwnResourceOnly⟩)
    (fun _ _ => some ⟨true, .OwnResourceOnly⟩) (fun u c => u == c) (fun u c => u == c)
    ⟨1, .teacher⟩ .READ_STUDENT 1 rfl rfl

/-- C9: for each student-targeting handler (read, update, delete, expel), the
authorization outcome is independent of the student id: whatever the injected
permission callable is — it receives only role, user id, route, permission
setting and classroom id — two runs differing only in student_id have the
same result, so the student's membership in the classroom is never consulted
by the check. -/
theorem c9_auth_decision_independent_of_student_id {α : Type}
    (pc : PermissionCallable α) (token : TokenData) (ps : PermissionSetting)
    (classroom_id s1 s2 : Nat) :
    (get_student pc token ps classroom_id s1).result
        = (get_student pc token ps classroom_id s2).result
    ∧ (update_student pc token ps classroom_id s1).result
        = (update_student pc token ps classroom_id s2).result
    ∧ (delete_student pc token ps classroom_id s1).result
        = (delete_student pc token ps classroom_id s2).result
    ∧ (expel_student pc token ps classroom_id s1).result
        = (expel_student pc token ps classroom_id s2).result := by
  refine ⟨?_, ?_, ?_, ?_⟩
  · cases h : pc token.role token.user_id .READ_STUDENT ps classroom_id <;>
      simp [get_student, h]
  · cases h : pc token.role token.user_id .UPDATE_STUDENT ps classroom_id <;>
      simp [update_student, h]
  · cases h : pc token.role token.user_id .DELETE_STUDENT ps classroom_id <;>
      simp [delete_student, h]
  · cases h : pc token.role token.user_id .EXPEL_STUDENT ps classroom_id <;>
      simp [expel_student, h]

/-- C10: the update handler takes no request body (its embedding, like the
source signature, has no body parameter), and once authorization permits it
issues exactly one store call setting the student's grade to the constant 10;
moreover, for an arbitrary permission callable, every store call it ever
issues is that grade-10 update, independent of any caller-supplied input. -/
theorem c10_update_always_sets_grade_ten (ps : PermissionSetting) (owns : Ownership)
    (token : TokenData) (classroom_id student_id : Nat)
    (h : authorize ps owns token .UPDATE_STUDENT classroom_id = .Permit) :
    update_student (check_permission owns) token ps classroom_id student_id
      = ⟨[.update_student_grade student_id 10], .ok ()⟩
    ∧ ∀ (α : Type) (pc : PermissionCallable α) (c : StoreCall),
        c ∈ (update_student pc token ps classroom_id student_id).calls →
        c = .update_student_grade student_id 10 := by
  refine ⟨?_, ?_⟩
  · rw [update_student,
      check_permission_of_permit owns ps token .UPDATE_STUDENT classroom_id h]
  · intro α pc c hc
    cases hpc : pc token.role token.user_id .UPDATE_STUDENT ps classroom_id <;>
      rw [update_student, hpc] at hc
    · simp at hc
    · simpa using hc

/-- Witness for C10: a permitted concrete update request issues exactly the
grade-10 store call. -/
theorem c10_update_always_sets_grade_ten_witness :
    update_student (check_permission (fun _ _ => false)) ⟨0, .admin⟩
      (fun _ _ => some ⟨true, .Global⟩) 1 2
      = ⟨[.update_student_grade 2 10], .ok ()⟩ :=
  (c10_update_always_sets_grade_ten (fun _ _ => some ⟨true, .Global⟩)
    (fun _ _ => false) ⟨0, .admin⟩ 1 2 rfl).1

end FastAcl
